import Mathlib

/-!
# Verification of the deepcell-tf repository snapshot

A shallow embedding, in Lean 4, of the behaviour visible in the repository's
files: the container build recipe (`src/Dockerfile`) and the two Jupyter
notebooks (a cell-tracking training notebook and the nuclear-segmentation
application notebook).  Pure shell/Python fragments are translated into Lean
functions; the theorems at the end of the file settle the specification
claims against those definitions.
-/

namespace DeepcellTF

/-! ## Dockerfile embedding

`src/Dockerfile` is a linear list of build instructions.  Each build step is
recorded with its instruction keyword, a faithful rendition of its argument
text, the list of apt packages it installs (empty for non-`apt-get install`
steps), the command list it sets as the image default (only for `CMD`), and
the installation phase the step belongs to.
-/

/-- The installation phases named by the specification's description of the
container build: system packages via apt-get, Python dependencies from
requirements.txt, the deepcell package itself, and the Edge TPU toolchain.
Steps serving none of these four phases are tagged `other`. -/
inductive Phase where
  | system
  | pydeps
  | package
  | edgetpu
  | other
deriving DecidableEq, Repr

/-- One Dockerfile build step. -/
structure Step where
  instr : String
  args : List String
  aptPkgs : List String
  cmdList : Option (List String)
  phase : Phase
deriving DecidableEq, Repr

/-- Helper: a step that installs nothing via apt and sets no CMD. -/
def mkStep (instr : String) (args : List String) (phase : Phase) : Step :=
  { instr := instr, args := args, aptPkgs := [], cmdList := none, phase := phase }

/-- The build steps of `src/Dockerfile`, in file order (`ARG`/`FROM` are
modelled separately by `baseImageTag` below; comments are elided).
Line references are to `src/Dockerfile`. -/
def buildSteps : List Step :=
  [ -- line 9: RUN apt-get update && apt-get install -y python3-tk git libsm6 ...
    { instr := "RUN"
      args := ["apt-get update && DEBIAN_FRONTEND=noninteractive apt-get install -y python3-tk git libsm6 && rm -rf /var/lib/apt/lists/* && /usr/local/bin/pip install --upgrade pip"]
      aptPkgs := ["python3-tk", "git", "libsm6"]
      cmdList := none
      phase := Phase.system },
    -- line 17: COPY setup.py requirements.txt /opt/deepcell-tf/
    mkStep "COPY" ["setup.py", "requirements.txt", "/opt/deepcell-tf/"] Phase.other,
    -- line 20-21: RUN sed -i "/tensorflow/d" requirements.txt && pip install -r requirements.txt
    mkStep "RUN" ["sed -i /tensorflow/d /opt/deepcell-tf/requirements.txt && pip install -r /opt/deepcell-tf/requirements.txt"] Phase.pydeps,
    -- line 24: COPY deepcell /opt/deepcell-tf/deepcell
    mkStep "COPY" ["deepcell", "/opt/deepcell-tf/deepcell"] Phase.other,
    -- line 27-29: RUN pip install /opt/deepcell-tf && cd /opt/deepcell-tf && python setup.py build_ext --inplace
    mkStep "RUN" ["pip install /opt/deepcell-tf && cd /opt/deepcell-tf && python setup.py build_ext --inplace"] Phase.package,
    -- line 32: RUN pip install --upgrade git+https://github.com/keras-team/keras-applications.git
    mkStep "RUN" ["pip install --upgrade git+https://github.com/keras-team/keras-applications.git"] Phase.other,
    -- line 35: RUN curl https://packages.cloud.google.com/apt/doc/apt-key.gpg | apt-key add -
    mkStep "RUN" ["curl https://packages.cloud.google.com/apt/doc/apt-key.gpg | apt-key add -"] Phase.edgetpu,
    -- line 37: RUN echo "deb https://packages.cloud.google.com/apt coral-edgetpu-stable main" | tee /etc/apt/sources.list.d/coral-edgetpu.list
    mkStep "RUN" ["echo deb https://packages.cloud.google.com/apt coral-edgetpu-stable main | tee /etc/apt/sources.list.d/coral-edgetpu.list"] Phase.edgetpu,
    -- line 39: RUN apt-get update   (refreshing the just-added coral-edgetpu repo)
    mkStep "RUN" ["apt-get update"] Phase.edgetpu,
    -- line 43: RUN apt-get install -y libedgetpu1-std   (line 41 `apt-get install -y edgetpu` is commented out)
    { instr := "RUN"
      args := ["apt-get install -y libedgetpu1-std"]
      aptPkgs := ["libedgetpu1-std"]
      cmdList := none
      phase := Phase.edgetpu },
    -- line 45: RUN mkdir /coral
    mkStep "RUN" ["mkdir /coral"] Phase.edgetpu,
    -- line 47: WORKDIR /coral
    mkStep "WORKDIR" ["/coral"] Phase.other,
    -- line 49: RUN git clone https://github.com/google-coral/tflite.git
    mkStep "RUN" ["git clone https://github.com/google-coral/tflite.git"] Phase.edgetpu,
    -- line 51: RUN pip install https://dl.google.com/coral/python/tflite_runtime-2.1.0.post1-cp36-cp36m-linux_x86_64.whl
    mkStep "RUN" ["pip install https://dl.google.com/coral/python/tflite_runtime-2.1.0.post1-cp36-cp36m-linux_x86_64.whl"] Phase.edgetpu,
    -- line 53: WORKDIR /coral/tflite/python/examples/classification
    mkStep "WORKDIR" ["/coral/tflite/python/examples/classification"] Phase.other,
    -- line 55: RUN ./install_requirements.sh
    mkStep "RUN" ["./install_requirements.sh"] Phase.edgetpu,
    -- line 57: WORKDIR /notebooks
    mkStep "WORKDIR" ["/notebooks"] Phase.other,
    -- line 60-64: RUN if [ -n "$(find /notebooks/ -prune)" ] ; then ... mv older notebooks ... fi
    mkStep "RUN" ["if notebooks exist then move them into /notebooks/intro_to_tensorflow"] Phase.other,
    -- line 67: COPY scripts/ /notebooks/
    mkStep "COPY" ["scripts/", "/notebooks/"] Phase.other,
    -- line 69: CMD ["jupyter", "notebook", "--ip=0.0.0.0", "--allow-root"]
    { instr := "CMD"
      args := ["jupyter", "notebook", "--ip=0.0.0.0", "--allow-root"]
      aptPkgs := []
      cmdList := some ["jupyter", "notebook", "--ip=0.0.0.0", "--allow-root"]
      phase := Phase.other } ]

/-- All packages installed through apt-get by a build of the image, in
installation order. -/
def installedAptPackages : List String :=
  (buildSteps.map Step.aptPkgs).flatten

/-- The image's default command: the value of the last `CMD` instruction in
the Dockerfile (Docker semantics: a later `CMD` overrides an earlier one;
absent any `CMD` the base image's default applies, modelled as `none`). -/
def imageDefaultCmd : Option (List String) :=
  (buildSteps.filterMap Step.cmdList).getLast?

/-- The command a container started from the image runs: the run-time
override when one is given, otherwise the image's default command
(the Dockerfile has no `ENTRYPOINT`, so `CMD` is the whole command). -/
def containerCommand (override : Option (List String)) : Option (List String) :=
  match override with
  | some c => some c
  | none => imageDefaultCmd

/-- `ARG TF_VERSION=1.15.0-gpu` followed by
`FROM tensorflow/tensorflow:${TF_VERSION}-py3` (Dockerfile lines 4-6):
the base image reference, as a function of the optional build-time
argument. -/
def baseImageTag (tfVersion : Option String) : String :=
  "tensorflow/tensorflow:" ++ tfVersion.getD "1.15.0-gpu" ++ "-py3"

/-- Rank of the four named install phases in the order the claim lists them;
`other` steps are unranked. -/
def phaseRank : Phase → Option (Fin 4)
  | Phase.system => some 0
  | Phase.pydeps => some 1
  | Phase.package => some 2
  | Phase.edgetpu => some 3
  | Phase.other => none

/-! ### sed "/tensorflow/d" on requirements.txt (Dockerfile lines 20-21) -/

/-- Whether `needle` occurs as a contiguous run at the start of `hay`. -/
def leadingRun : List Char → List Char → Bool
  | [], _ => true
  | _ :: _, [] => false
  | a :: as, b :: bs => a = b && leadingRun as bs

/-- Whether `needle` occurs as a contiguous run anywhere in `hay`
(the matching notion of an unanchored literal `sed` address). -/
def hasRun (needle : List Char) : List Char → Bool
  | [] => leadingRun needle []
  | b :: bs => leadingRun needle (b :: bs) || hasRun needle bs

/-- Whether the string `line` contains the substring `pat`. -/
def lineHas (pat line : String) : Bool :=
  hasRun pat.toList line.toList

/-- `sed -i "/pat/d" file`: delete every line containing `pat`, keeping the
rest in order. -/
def sedDeleteLines (pat : String) (lines : List String) : List String :=
  lines.filter (fun l => !(lineHas pat l))

/-- The requirement lines handed to `pip install -r` in Dockerfile line 21:
the requirements file after `sed -i "/tensorflow/d"` (line 20) has run. -/
def pipRequirementLines (requirements : List String) : List String :=
  sedDeleteLines "tensorflow" requirements

/-! ## Tracking notebook: filepath setup and directory creation

The training notebook (src/unnamed/part_000) sets up

```
PREFIX    = os.path.relpath(os.path.dirname(DATA_FILE), DATA_DIR)
ROOT_DIR  = '/data'
MODEL_DIR = os.path.abspath(os.path.join(ROOT_DIR, 'models', PREFIX))
LOG_DIR   = os.path.abspath(os.path.join(ROOT_DIR, 'logs', PREFIX))
model_path = os.path.join(MODEL_DIR, '{}.h5'.format(model_name))
```

with `DATA_FILE = os.path.join(DATA_DIR, filename_train)`, then creates
`MODEL_DIR` and `LOG_DIR`, suppressing `OSError` with errno `EEXIST`.

Absolute filesystem paths are modelled as lists of path segments (the
list `["data", "models"]` stands for `/data/models`).
-/

/-- `os.path.dirname` on a segment-list path: drop the final segment. -/
def dirname (p : List String) : List String := p.dropLast

/-- Length of the longest common leading run of two segment lists
(the common path prefix that `os.path.relpath` starts from). -/
def commonLen : List String → List String → Nat
  | a :: as, b :: bs => if a = b then commonLen as bs + 1 else 0
  | _, _ => 0

/-- `os.path.relpath(p, base)` on segment lists: climb out of the part of
`base` beyond the common prefix with `..` segments, then descend into the
rest of `p`; an empty result is the current directory `.`. -/
def relpath (p base : List String) : List String :=
  let c := commonLen p base
  let r := List.replicate (base.length - c) ".." ++ p.drop c
  if r = [] then ["."] else r

/-- `os.path.normpath` on an absolute segment-list path: drop `.` and empty
segments, and resolve `..` against the preceding segment (at the root,
`/..` collapses to `/`).  `os.path.abspath` of an already-absolute path is
exactly this normalisation. -/
def normSegs (p : List String) : List String :=
  p.foldl
    (fun acc s =>
      if s = "." ∨ s = "" then acc
      else if s = ".." then acc.dropLast
      else acc ++ [s])
    []

/-- `ROOT_DIR = '/data'` (the notebook's configurable persistence root). -/
def ROOT_DIR : List String := ["data"]

/-- `PREFIX = os.path.relpath(os.path.dirname(DATA_FILE), DATA_DIR)` where
`DATA_FILE = os.path.join(DATA_DIR, filename_train)`. -/
def PREFIX (dataDir : List String) (filenameTrain : String) : List String :=
  relpath (dirname (dataDir ++ [filenameTrain])) dataDir

/-- `MODEL_DIR = os.path.abspath(os.path.join(ROOT_DIR, 'models', PREFIX))`. -/
def MODEL_DIR (dataDir : List String) (filenameTrain : String) : List String :=
  normSegs (ROOT_DIR ++ ["models"] ++ PREFIX dataDir filenameTrain)

/-- `LOG_DIR = os.path.abspath(os.path.join(ROOT_DIR, 'logs', PREFIX))`. -/
def LOG_DIR (dataDir : List String) (filenameTrain : String) : List String :=
  normSegs (ROOT_DIR ++ ["logs"] ++ PREFIX dataDir filenameTrain)

/-- `model_path = os.path.join(MODEL_DIR, '{}.h5'.format(model_name))`. -/
def model_path (dataDir : List String) (filenameTrain modelName : String) :
    List String :=
  MODEL_DIR dataDir filenameTrain ++ [modelName ++ ".h5"]

/-! ### Directory creation with EEXIST suppression -/

/-- `errno.EEXIST` (17 on Linux). -/
def eEXIST : Nat := 17

/-- Outcome of one `os.makedirs(d)` call: success, or an `OSError`
carrying its errno. -/
def MakedirsResult : Type := Except Nat Unit

instance : DecidableEq MakedirsResult := fun a b =>
  match a, b with
  | Except.ok (), Except.ok () => isTrue rfl
  | Except.ok (), Except.error _ => isFalse (fun h => Except.noConfusion h)
  | Except.error _, Except.ok () => isFalse (fun h => Except.noConfusion h)
  | Except.error e, Except.error f =>
      if h : e = f then isTrue (by rw [h])
      else isFalse (fun hc => h (by cases hc; rfl))

/-- One iteration of the notebook's loop body:

```
try:
    os.makedirs(d)
except OSError as exc:  # Guard against race condition
    if exc.errno != errno.EEXIST:
        raise
```

given the outcome `res` of the `os.makedirs` call itself. -/
def guardedMakedirs (res : MakedirsResult) : MakedirsResult :=
  match res with
  | Except.ok _ => Except.ok ()
  | Except.error eno => if eno ≠ eEXIST then Except.error eno else Except.ok ()

/-- `for d in (MODEL_DIR, LOG_DIR): try ... except ...`, given the outcomes
the two `os.makedirs` calls would have (`resModel` for `MODEL_DIR`,
`resLog` for `LOG_DIR`); an exception propagating from the first iteration
aborts the loop before the second runs. -/
def createDirs (resModel resLog : MakedirsResult) : MakedirsResult :=
  match guardedMakedirs resModel with
  | Except.error eno => Except.error eno
  | Except.ok _ => guardedMakedirs resLog

/-- A `makedirs` outcome the notebook's guard suppresses: success, or an
`OSError` whose errno is `EEXIST`. -/
def suppressible (res : MakedirsResult) : Prop :=
  res = Except.ok () ∨ res = Except.error eEXIST

instance (res : MakedirsResult) : Decidable (suppressible res) := by
  unfold suppressible
  infer_instance

/-! ## Tracking notebook: maxima computation and zero padding

The notebook combines several `.trks` files.  A movie (`trks['X'][i]` or
`trks['y'][i]`) is a 4-D array `(frames, y, x, channels)`; it is modelled
as its four dimensions together with a total valuation function (only the
values at indices inside the dimensions are meaningful). -/

/-- A 4-D array `(frames, y, x, channels)` of scalars. -/
structure Movie where
  nf : Nat
  ny : Nat
  nx : Nat
  nc : Nat
  val : Nat → Nat → Nat → Nat → Int

/-- `np.pad(m, ((before, after), (0,0), (0,0), (0,0)), 'constant', constant_values=0)`:
pad the frame axis with zero frames. -/
def padAxis0 (before after : Nat) (m : Movie) : Movie :=
  { m with
    nf := before + m.nf + after
    val := fun f i j c =>
      if before ≤ f ∧ f < before + m.nf then m.val (f - before) i j c else 0 }

/-- `np.pad(m, ((0,0), (before, after), (0,0), (0,0)), 'constant', constant_values=0)`:
pad the row (y) axis with zero rows. -/
def padAxis1 (before after : Nat) (m : Movie) : Movie :=
  { m with
    ny := before + m.ny + after
    val := fun f i j c =>
      if before ≤ i ∧ i < before + m.ny then m.val f (i - before) j c else 0 }

/-- `np.pad(m, ((0,0), (0,0), (before, after), (0,0)), 'constant', constant_values=0)`:
pad the column (x) axis with zero columns. -/
def padAxis2 (before after : Nat) (m : Movie) : Movie :=
  { m with
    nx := before + m.nx + after
    val := fun f i j c =>
      if before ≤ j ∧ j < before + m.nx then m.val f i (j - before) c else 0 }

/-- The per-movie padding step of the preprocessing loop
(src/unnamed/part_000 lines 197-218), acting on the pair
`(raw, tracked)`.  All conditions inspect `raw`'s current shape; each
`np.pad` is applied with identical widths to `raw` and `tracked`:

```
if raw.shape[1] < max_y:
    diff2pad = max_y - raw.shape[1]
    pad_width = int(diff2pad / 2)
    if diff2pad % 2 == 0:   pad ((0,0),(pad_width,pad_width),(0,0),(0,0))
    else:                   pad ((0,0),(pad_width+1,pad_width),(0,0),(0,0))
if raw.shape[2] < max_x:    (same on axis 2)
if raw.shape[0] < max_frames:
    pad_width = int(max_frames - raw.shape[0])
    pad ((0,pad_width),(0,0),(0,0),(0,0))
```

The three blocks are embedded one definition each (`padPairY`, `padPairX`,
`padPairF`), acting on the current `(raw, tracked)` pair with all
conditions and widths read off the pair's first component, and `padStep`
is their sequential composition.  This block is `raw.shape[1] < max_y`:
pad the row axis, extra row leading when the deficit is odd. -/
def padPairY (maxY : Nat) (p : Movie × Movie) : Movie × Movie :=
  if p.1.ny < maxY then
    let diff2pad := maxY - p.1.ny
    let pw := diff2pad / 2
    if diff2pad % 2 = 0 then
      (padAxis1 pw pw p.1, padAxis1 pw pw p.2)
    else
      (padAxis1 (pw + 1) pw p.1, padAxis1 (pw + 1) pw p.2)
  else p

/-- The `raw.shape[2] < max_x` block, analogous on the column axis. -/
def padPairX (maxX : Nat) (p : Movie × Movie) : Movie × Movie :=
  if p.1.nx < maxX then
    let diff2pad := maxX - p.1.nx
    let pw := diff2pad / 2
    if diff2pad % 2 = 0 then
      (padAxis2 pw pw p.1, padAxis2 pw pw p.2)
    else
      (padAxis2 (pw + 1) pw p.1, padAxis2 (pw + 1) pw p.2)
  else p

/-- The `raw.shape[0] < max_frames` block: append zero frames at the end. -/
def padPairF (maxFrames : Nat) (p : Movie × Movie) : Movie × Movie :=
  if p.1.nf < maxFrames then
    let pw := maxFrames - p.1.nf
    (padAxis0 0 pw p.1, padAxis0 0 pw p.2)
  else p

def padStep (maxFrames maxY maxX : Nat) (raw tracked : Movie) : Movie × Movie :=
  padPairF maxFrames (padPairX maxX (padPairY maxY (raw, tracked)))

/-- The leading (before) pad width the step uses on an axis whose size is
`dim` against maximum `maxDim`: `pad_width` when the deficit is even,
`pad_width + 1` when it is odd. -/
def leadPad (maxDim dim : Nat) : Nat :=
  (maxDim - dim) / 2 + (maxDim - dim) % 2

/-- One `.trks` file's movie list (`trks['X']`), known to be non-empty
because the maxima loop indexes `trks['X'][0]` unconditionally: the first
movie paired with the remaining ones. -/
abbrev TrksX : Type := Movie × List Movie

/-- The maxima loop (src/unnamed/part_000 lines 154-168):

```
max_frames = 1; max_y = 1; max_x = 1
for trks_file in trks_files:
    trks = load_trks(trks_file)
    if trks['X'][0].shape[0] > max_frames: max_frames = trks['X'][0].shape[0]
    if trks['X'][0].shape[1] > max_y:      max_y = trks['X'][0].shape[1]
    if trks['X'][0].shape[2] > max_x:      max_x = trks['X'][0].shape[2]
```
-/
def computeMaxima (files : List TrksX) : Nat × Nat × Nat :=
  files.foldl
    (fun acc file =>
      let first := file.1
      ( if first.nf > acc.1 then first.nf else acc.1,
        if first.ny > acc.2.1 then first.ny else acc.2.1,
        if first.nx > acc.2.2 then first.nx else acc.2.2 ))
    (1, 1, 1)

/-! ## Nuclear segmentation application (modelled from the spec) -/

/-- Resampling a movie to new spatial dimensions `(newY, newX)` by
nearest-neighbour index scaling; frame and channel axes are untouched. -/
def resizeSpatial (newY newX : Nat) (m : Movie) : Movie :=
  { m with
    ny := newY
    nx := newX
    val := fun f i j c => m.val f (i * m.ny / newY) (j * m.nx / newX) c }

/-- The application's training resolution, `app.model_mpp`, printed by the
notebook as 0.65 microns per pixel; resolutions are carried as integer
nanometres per pixel so that the model stays executable. -/
def model_mpp_nm : Nat := 650

/-- Spatial size after rescaling a `dim`-pixel axis captured at `imageMpp`
nanometres per pixel to the training resolution. -/
def scaledDim (imageMpp dim : Nat) : Nat := dim * imageMpp / model_mpp_nm

/-- Modelled from the spec: `deepcell.applications.NuclearSegmentation.predict`
belongs to this repository's `deepcell` package but is not among the
provided source files; only its caller
(src/notebooks/applications/Nuclear-Application.ipynb) is.  Per the spec's
glossary a segmentation application is an "external pretrained-model
wrapper producing per-pixel instance labels from raw microscopy images",
and per the notebook's prose the application "will rescale the input data
to match the training resolution and then rescale to the original size
before returning the labeled image".  The wrapper is modelled
accordingly: the pretrained network itself is an arbitrary per-pixel
labeller `core` (a valuation transformer, one output label per pixel of
its input); `predict` rescales the raw movie to the training resolution,
applies `core`, and rescales the labelled result back to the input's
original spatial size. -/
def appPredict (core : (Nat → Nat → Nat → Nat → Int) → Nat → Nat → Nat → Nat → Int)
    (imageMpp : Nat) (x : Movie) : Movie :=
  let resized := resizeSpatial (scaledDim imageMpp x.ny) (scaledDim imageMpp x.nx) x
  let labeled : Movie := { resized with val := core resized.val }
  resizeSpatial x.ny x.nx labeled

/-- A concrete 1-frame, 2x3, 1-channel raw movie used to instantiate the
padding theorems. -/
def wRaw : Movie := ⟨1, 2, 3, 1, fun _ _ _ _ => 7⟩

/-- A concrete tracked movie with the same frame/row/column dimensions as
`wRaw` but two channels. -/
def wTrk : Movie := ⟨1, 2, 3, 2, fun _ _ _ _ => 8⟩

/-! ## Dimension lemmas for the padding primitives -/

@[simp] theorem padAxis0_nf (b a : Nat) (m : Movie) :
    (padAxis0 b a m).nf = b + m.nf + a := rfl

@[simp] theorem padAxis0_ny (b a : Nat) (m : Movie) :
    (padAxis0 b a m).ny = m.ny := rfl

@[simp] theorem padAxis0_nx (b a : Nat) (m : Movie) :
    (padAxis0 b a m).nx = m.nx := rfl

@[simp] theorem padAxis0_nc (b a : Nat) (m : Movie) :
    (padAxis0 b a m).nc = m.nc := rfl

@[simp] theorem padAxis1_nf (b a : Nat) (m : Movie) :
    (padAxis1 b a m).nf = m.nf := rfl

@[simp] theorem padAxis1_ny (b a : Nat) (m : Movie) :
    (padAxis1 b a m).ny = b + m.ny + a := rfl

@[simp] theorem padAxis1_nx (b a : Nat) (m : Movie) :
    (padAxis1 b a m).nx = m.nx := rfl

@[simp] theorem padAxis1_nc (b a : Nat) (m : Movie) :
    (padAxis1 b a m).nc = m.nc := rfl

@[simp] theorem padAxis2_nf (b a : Nat) (m : Movie) :
    (padAxis2 b a m).nf = m.nf := rfl

@[simp] theorem padAxis2_ny (b a : Nat) (m : Movie) :
    (padAxis2 b a m).ny = m.ny := rfl

@[simp] theorem padAxis2_nx (b a : Nat) (m : Movie) :
    (padAxis2 b a m).nx = b + m.nx + a := rfl

@[simp] theorem padAxis2_nc (b a : Nat) (m : Movie) :
    (padAxis2 b a m).nc = m.nc := rfl

theorem padAxis0_val (b a : Nat) (m : Movie) (f i j c : Nat) :
    (padAxis0 b a m).val f i j c =
      if b ≤ f ∧ f < b + m.nf then m.val (f - b) i j c else 0 := rfl

theorem padAxis1_val (b a : Nat) (m : Movie) (f i j c : Nat) :
    (padAxis1 b a m).val f i j c =
      if b ≤ i ∧ i < b + m.ny then m.val f (i - b) j c else 0 := rfl

theorem padAxis2_val (b a : Nat) (m : Movie) (f i j c : Nat) :
    (padAxis2 b a m).val f i j c =
      if b ≤ j ∧ j < b + m.nx then m.val f i (j - b) c else 0 := rfl

/-! ## Claim theorems -/

/-- C1: the image's default entry point — the sole `CMD` of the Dockerfile —
launches `jupyter notebook` with `--ip=0.0.0.0` (bound to all interfaces)
and `--allow-root`, and every container started without an overriding
command runs exactly that command. -/
theorem claim1_default_command :
    containerCommand none =
      some ["jupyter", "notebook", "--ip=0.0.0.0", "--allow-root"] ∧
    "--ip=0.0.0.0" ∈ ["jupyter", "notebook", "--ip=0.0.0.0", "--allow-root"] ∧
    "--allow-root" ∈ ["jupyter", "notebook", "--ip=0.0.0.0", "--allow-root"] ∧
    ∀ override : List String, containerCommand (some override) = some override := by
  refine ⟨rfl, by decide, by decide, fun override => rfl⟩

/-- C3 (code bug): a build of the image installs, via apt, only
`python3-tk`, `git`, `libsm6` and the Edge TPU *runtime library*
`libedgetpu1-std`; no Edge TPU compiler package (`edgetpu-compiler`) is
ever installed, although the Dockerfile's own comment above the block
(line 34) reads "Install edge tpu compiler". -/
theorem claim3_no_edgetpu_compiler :
    installedAptPackages = ["python3-tk", "git", "libsm6", "libedgetpu1-std"] ∧
    "edgetpu-compiler" ∉ installedAptPackages ∧
    "libedgetpu1-std" ∈ installedAptPackages := by
  refine ⟨by decide, by decide, by decide⟩

/-- C5: the base image reference is
`tensorflow/tensorflow:${TF_VERSION}-py3` for every value of the
`TF_VERSION` build argument — the `-py3` suffix is always appended — and
when the argument is omitted it defaults to `1.15.0-gpu`. -/
theorem claim5_base_image :
    baseImageTag none = "tensorflow/tensorflow:1.15.0-gpu-py3" ∧
    (∀ v : String, baseImageTag (some v) = "tensorflow/tensorflow:" ++ v ++ "-py3") ∧
    ∀ o : Option String, ∃ s : String, baseImageTag o = s ++ "-py3" := by
  refine ⟨rfl, fun v => rfl, fun o => ⟨"tensorflow/tensorflow:" ++ o.getD "1.15.0-gpu", rfl⟩⟩

/-- C6: the four installation phases of the build — system packages,
Python dependencies from requirements.txt, the deepcell package, the
Edge TPU toolchain — occur in that order: whenever step `i` belongs to an
earlier-listed phase than step `j`, step `i` precedes step `j` in the
Dockerfile. -/
theorem claim6_phase_order :
    ∀ (i j : Fin buildSteps.length) (a b : Fin 4),
      phaseRank (buildSteps.get i).phase = some a →
      phaseRank (buildSteps.get j).phase = some b →
      a < b → i.val < j.val := by
  decide

/-- Witness for C6 at a concrete pair of steps: the apt-get system step
(index 0) precedes the requirements.txt step (index 2). -/
theorem claim6_phase_order_witness :
    phaseRank (buildSteps.get ⟨0, by decide⟩).phase = some 0 ∧
    phaseRank (buildSteps.get ⟨2, by decide⟩).phase = some 1 ∧
    (0 : Nat) < 2 :=
  ⟨by decide, by decide,
    claim6_phase_order ⟨0, by decide⟩ ⟨2, by decide⟩ 0 1 (by decide) (by decide)
      (by decide)⟩

/-- C10: after `sed "/tensorflow/d"`, a line of requirements.txt survives
into the `pip install -r` input exactly when it does not contain the
substring `tensorflow`; in particular every line containing that substring
is deleted and is never handed to pip. -/
theorem claim10_sed_tensorflow :
    ∀ (requirements : List String) (line : String),
      (line ∈ requirements → lineHas "tensorflow" line = true →
        line ∉ pipRequirementLines requirements) ∧
      (line ∈ pipRequirementLines requirements ↔
        line ∈ requirements ∧ lineHas "tensorflow" line = false) := by
  intro requirements line
  constructor
  · intro _ hc hmem
    rw [pipRequirementLines, sedDeleteLines, List.mem_filter] at hmem
    rw [hc] at hmem
    simp at hmem
  · rw [pipRequirementLines, sedDeleteLines, List.mem_filter]
    constructor
    · intro ⟨hm, hp⟩
      refine ⟨hm, ?_⟩
      cases h : lineHas "tensorflow" line
      · rfl
      · rw [h] at hp
        simp at hp
    · intro ⟨hm, hp⟩
      refine ⟨hm, ?_⟩
      rw [hp]
      rfl

/-- Witness for C10: the line `tensorflow==1.15.0` contains the substring
and is absent from the pip input computed from a concrete two-line
requirements file. -/
theorem claim10_sed_tensorflow_witness :
    "tensorflow==1.15.0" ∉ pipRequirementLines ["tensorflow==1.15.0", "numpy>=1.16"] :=
  (claim10_sed_tensorflow ["tensorflow==1.15.0", "numpy>=1.16"] "tensorflow==1.15.0").1
    (by decide) (by decide)

/-- `guardedMakedirs` returns success exactly on the suppressible
outcomes: success, or an `OSError` with errno `EEXIST`. -/
theorem guardedMakedirs_eq_ok_iff (res : MakedirsResult) :
    guardedMakedirs res = Except.ok () ↔ suppressible res := by
  cases res with
  | ok u =>
    cases u
    simp [guardedMakedirs, suppressible]
  | error e =>
    by_cases h : e = eEXIST
    · subst h
      simp [guardedMakedirs, suppressible]
    · have hg : guardedMakedirs (Except.error e) = Except.error e := by
        simp [guardedMakedirs, h]
      rw [hg]
      constructor
      · intro hc
        exact absurd hc (by simp)
      · intro hc
        rcases hc with hc | hc
        · exact absurd hc (by simp)
        · injection hc with hh
          exact absurd hh h

/-- C2: the notebook's directory-creation loop succeeds iff each of the two
`os.makedirs` outcomes is success or an `EEXIST` error, and an `OSError`
with any other errno is re-raised — from the first directory's iteration
(aborting before the second), or from the second directory's iteration
when the first was suppressed — with each directory judged independently. -/
theorem claim2_makedirs_eexist :
    ∀ resModel resLog : MakedirsResult,
      (createDirs resModel resLog = Except.ok () ↔
        suppressible resModel ∧ suppressible resLog) ∧
      (∀ eno : Nat, eno ≠ eEXIST →
        createDirs (Except.error eno) resLog = Except.error eno ∧
        (suppressible resModel →
          createDirs resModel (Except.error eno) = Except.error eno)) := by
  intro resModel resLog
  constructor
  · rw [createDirs]
    cases h : guardedMakedirs resModel with
    | error e =>
      constructor
      · intro hc
        exact absurd hc (by simp)
      · intro ⟨hs, _⟩
        rw [← guardedMakedirs_eq_ok_iff] at hs
        rw [hs] at h
        exact absurd h (by simp)
    | ok u =>
      cases u
      rw [guardedMakedirs_eq_ok_iff]
      have hm : suppressible resModel := (guardedMakedirs_eq_ok_iff resModel).mp h
      simp [hm]
  · intro eno he
    constructor
    · rw [createDirs]
      have : guardedMakedirs (Except.error eno) = Except.error eno := by
        simp [guardedMakedirs, he]
      rw [this]
    · intro hs
      rw [createDirs]
      rw [(guardedMakedirs_eq_ok_iff resModel).mpr hs]
      simp [guardedMakedirs, he]

/-- Witness for C2 at errno 13 (≠ EEXIST): the error propagates from the
first directory, and from the second when the first succeeded. -/
theorem claim2_makedirs_eexist_witness :
    createDirs (Except.error 13) (Except.ok ()) = Except.error 13 ∧
    createDirs (Except.ok ()) (Except.error 13) = Except.error 13 := by
  have h := (claim2_makedirs_eexist (Except.ok ()) (Except.ok ())).2 13 (by decide)
  exact ⟨h.1, h.2 (Or.inl rfl)⟩

/-- The common leading run of a list with itself is the whole list. -/
theorem commonLen_self (l : List String) : commonLen l l = l.length := by
  induction l with
  | nil => rfl
  | cons a as ih => simp [commonLen, ih]

/-- `os.path.relpath(p, p)` is the current directory. -/
theorem relpath_self (l : List String) : relpath l l = ["."] := by
  rw [relpath, commonLen_self]
  simp

/-- When the training data file sits directly in `DATA_DIR`, `PREFIX`
evaluates to the current-directory path `.`. -/
theorem PREFIX_eq_dot (dataDir : List String) (filenameTrain : String) :
    PREFIX dataDir filenameTrain = ["."] := by
  rw [PREFIX, dirname, List.dropLast_concat, relpath_self]

/-- Path normalisation consumes its input one trailing segment at a time. -/
theorem normSegs_concat (l : List String) (s : String) :
    normSegs (l ++ [s]) =
      if s = "." ∨ s = "" then normSegs l
      else if s = ".." then (normSegs l).dropLast
      else normSegs l ++ [s] := by
  rw [normSegs, normSegs, List.foldl_append]
  rfl

/-- C4: the trained-weights file is
`ROOT_DIR/models/PREFIX/<model_name>.h5` and the TensorBoard log directory
is `ROOT_DIR/logs/PREFIX` (as normalised absolute paths), for every model
name; both are proper descendants of the configurable `ROOT_DIR`. -/
theorem claim4_persistence_paths :
    ∀ (dataDir : List String) (filenameTrain modelName : String),
      model_path dataDir filenameTrain modelName =
        normSegs (ROOT_DIR ++ ["models"] ++ PREFIX dataDir filenameTrain ++
          [modelName ++ ".h5"]) ∧
      LOG_DIR dataDir filenameTrain =
        normSegs (ROOT_DIR ++ ["logs"] ++ PREFIX dataDir filenameTrain) ∧
      ROOT_DIR <+: model_path dataDir filenameTrain modelName ∧
      ROOT_DIR ≠ model_path dataDir filenameTrain modelName ∧
      ROOT_DIR <+: LOG_DIR dataDir filenameTrain ∧
      ROOT_DIR ≠ LOG_DIR dataDir filenameTrain := by
  intro dataDir filenameTrain modelName
  have hpre := PREFIX_eq_dot dataDir filenameTrain
  have hlen : (modelName ++ ".h5").length = modelName.length + 3 := by
    rw [String.length_append, show (".h5").length = 3 from by decide]
  have hdot : ¬((modelName ++ ".h5") = "." ∨ (modelName ++ ".h5") = "") := by
    intro hc
    rcases hc with hc | hc
    · have := congrArg String.length hc
      rw [hlen, show (".").length = 1 from by decide] at this
      omega
    · have := congrArg String.length hc
      rw [hlen, show ("").length = 0 from by decide] at this
      omega
  have hdd : ¬((modelName ++ ".h5") = "..") := by
    intro hc
    have := congrArg String.length hc
    rw [hlen, show ("..").length = 2 from by decide] at this
    omega
  have hnm : normSegs (ROOT_DIR ++ ["models"] ++ ["."]) = ["data", "models"] := by
    decide
  have hnl : normSegs (ROOT_DIR ++ ["logs"] ++ ["."]) = ["data", "logs"] := by
    decide
  have hmd : MODEL_DIR dataDir filenameTrain = ["data", "models"] := by
    rw [ MODEL_DIR, hpre, hnm]
  have hld : LOG_DIR dataDir filenameTrain = ["data", "logs"] := by
    rw [LOG_DIR, hpre, hnl]
  refine ⟨?_, ?_, ?_, ?_, ?_, ?_⟩
  · rw [model_path, hmd, hpre, normSegs_concat, if_neg hdot, if_neg hdd, hnm]
  · rw [hld, hpre, hnl]
  · rw [model_path, hmd]
    exact ⟨["models", modelName ++ ".h5"], rfl⟩
  · rw [model_path, hmd]
    intro hc
    have := congrArg List.length hc
    simp [ROOT_DIR] at this
  · rw [hld]
    exact ⟨["logs"], rfl⟩
  · rw [hld]
    intro hc
    have := congrArg List.length hc
    simp [ROOT_DIR] at this

/-- C7 (modelled from the spec): the segmentation application's `predict`
returns a labelled movie of exactly the input movie's shape — one label
per input pixel — whatever the wrapped pretrained network and the input
resolution. -/
theorem claim7_predict_shape :
    ∀ (core : (Nat → Nat → Nat → Nat → Int) → Nat → Nat → Nat → Nat → Int)
      (imageMpp : Nat) (x : Movie),
      (appPredict core imageMpp x).nf = x.nf ∧
      (appPredict core imageMpp x).ny = x.ny ∧
      (appPredict core imageMpp x).nx = x.nx ∧
      (appPredict core imageMpp x).nc = x.nc :=
  fun _ _ _ => ⟨rfl, rfl, rfl, rfl⟩

/-- C9: the padding maxima are the maximum of the initial value 1 and the
dimensions of each file's movie 0 only — replacing the movies after the
first in any file leaves the maxima unchanged — and a movie at least as
large as the maxima passes through the padding step untouched; in
particular a dimension exceeding its maximum is never cropped (nor padded)
to the uniform shape. -/
theorem claim9_maxima_first_movie_only :
    (∀ (pre post : List TrksX) (first : Movie) (rest rest' : List Movie),
      computeMaxima (pre ++ (first, rest) :: post) =
        computeMaxima (pre ++ (first, rest') :: post)) ∧
    (∀ (maxFrames maxY maxX : Nat) (raw tracked : Movie),
      maxFrames ≤ raw.nf → maxY ≤ raw.ny → maxX ≤ raw.nx →
      padStep maxFrames maxY maxX raw tracked = (raw, tracked)) ∧
    (∀ (maxFrames maxY maxX : Nat) (raw tracked : Movie),
      maxY < raw.ny →
      ((padStep maxFrames maxY maxX raw tracked).1).ny = raw.ny ∧
      ((padStep maxFrames maxY maxX raw tracked).2).ny = tracked.ny) := by
  refine ⟨?_, ?_, ?_⟩
  · intro pre post first rest rest'
    rw [computeMaxima, computeMaxima, List.foldl_append, List.foldl_append,
      List.foldl_cons, List.foldl_cons]
  · intro maxFrames maxY maxX raw tracked h1 h2 h3
    have hy : ¬raw.ny < maxY := Nat.not_lt.mpr h2
    have hx : ¬raw.nx < maxX := Nat.not_lt.mpr h3
    have hf : ¬raw.nf < maxFrames := Nat.not_lt.mpr h1
    simp [padStep, padPairY, padPairX, padPairF, hy, hx, hf]
  · intro maxFrames maxY maxX raw tracked h
    have hy : ¬raw.ny < maxY := by omega
    constructor <;>
      · dsimp only [padStep, padPairY, padPairX, padPairF]
        split_ifs <;> rfl

/-- Shapes after the row-padding block: the first component's row count
becomes `max_y` (and so does the second's when it matches), all other
dimensions are untouched. -/
theorem padPairY_dims (maxY : Nat) (p : Movie × Movie)
    (h : p.1.ny ≤ maxY) (e : p.2.ny = p.1.ny) :
    (padPairY maxY p).1.nf = p.1.nf ∧ (padPairY maxY p).1.ny = maxY ∧
    (padPairY maxY p).1.nx = p.1.nx ∧ (padPairY maxY p).1.nc = p.1.nc ∧
    (padPairY maxY p).2.nf = p.2.nf ∧ (padPairY maxY p).2.ny = maxY ∧
    (padPairY maxY p).2.nx = p.2.nx ∧ (padPairY maxY p).2.nc = p.2.nc := by
  dsimp only [padPairY]
  split_ifs <;>
    refine ⟨?_, ?_, ?_, ?_, ?_, ?_, ?_, ?_⟩ <;>
    first
    | rfl
    | (dsimp only [padAxis1_ny, padAxis2_nx, padAxis0_nf]
       omega)

/-- Shapes after the column-padding block. -/
theorem padPairX_dims (maxX : Nat) (p : Movie × Movie)
    (h : p.1.nx ≤ maxX) (e : p.2.nx = p.1.nx) :
    (padPairX maxX p).1.nf = p.1.nf ∧ (padPairX maxX p).1.ny = p.1.ny ∧
    (padPairX maxX p).1.nx = maxX ∧ (padPairX maxX p).1.nc = p.1.nc ∧
    (padPairX maxX p).2.nf = p.2.nf ∧ (padPairX maxX p).2.ny = p.2.ny ∧
    (padPairX maxX p).2.nx = maxX ∧ (padPairX maxX p).2.nc = p.2.nc := by
  dsimp only [padPairX]
  split_ifs <;>
    refine ⟨?_, ?_, ?_, ?_, ?_, ?_, ?_, ?_⟩ <;>
    first
    | rfl
    | (dsimp only [padAxis1_ny, padAxis2_nx, padAxis0_nf]
       omega)

/-- Shapes after the frame-padding block. -/
theorem padPairF_dims (maxFrames : Nat) (p : Movie × Movie)
    (h : p.1.nf ≤ maxFrames) (e : p.2.nf = p.1.nf) :
    (padPairF maxFrames p).1.nf = maxFrames ∧
    (padPairF maxFrames p).1.ny = p.1.ny ∧
    (padPairF maxFrames p).1.nx = p.1.nx ∧
    (padPairF maxFrames p).1.nc = p.1.nc ∧
    (padPairF maxFrames p).2.nf = maxFrames ∧
    (padPairF maxFrames p).2.ny = p.2.ny ∧
    (padPairF maxFrames p).2.nx = p.2.nx ∧
    (padPairF maxFrames p).2.nc = p.2.nc := by
  dsimp only [padPairF]
  split_ifs <;>
    refine ⟨?_, ?_, ?_, ?_, ?_, ?_, ?_, ?_⟩ <;>
    first
    | rfl
    | (dsimp only [padAxis1_ny, padAxis2_nx, padAxis0_nf]
       omega)

/-- Values after the row-padding block, inside the output's row range:
original rows sit `leadPad max_y raw.ny` below the top — the extra zero
row of an odd deficit goes on the leading side — and both components are
shifted by the identical offset computed from the first component. -/
theorem padPairY_val (maxY : Nat) (p : Movie × Movie)
    (h : p.1.ny ≤ maxY) (e : p.2.ny = p.1.ny) :
    ∀ f i j c, i < maxY →
      ((padPairY maxY p).1.val f i j c =
        if leadPad maxY p.1.ny ≤ i ∧ i < leadPad maxY p.1.ny + p.1.ny
        then p.1.val f (i - leadPad maxY p.1.ny) j c else 0) ∧
      ((padPairY maxY p).2.val f i j c =
        if leadPad maxY p.1.ny ≤ i ∧ i < leadPad maxY p.1.ny + p.1.ny
        then p.2.val f (i - leadPad maxY p.1.ny) j c else 0) := by
  intro f i j c hi
  by_cases hy : p.1.ny < maxY
  · by_cases hp : (maxY - p.1.ny) % 2 = 0
    · have hl : leadPad maxY p.1.ny = (maxY - p.1.ny) / 2 := by
        rw [leadPad, hp, Nat.add_zero]
      simp only [padPairY, if_pos hy, if_pos hp, padAxis1_val, hl, e]
      constructor <;> trivial
    · have h1 : (maxY - p.1.ny) % 2 = 1 := by omega
      have hl : leadPad maxY p.1.ny = (maxY - p.1.ny) / 2 + 1 := by
        rw [leadPad, h1]
      simp only [padPairY, if_pos hy, if_neg hp, padAxis1_val, hl, e]
      constructor <;> trivial
  · have hl : leadPad maxY p.1.ny = 0 := by
      rw [leadPad]
      omega
    simp only [padPairY, if_neg hy, hl, Nat.zero_add, Nat.sub_zero]
    constructor <;> rw [if_pos ⟨Nat.zero_le i, by omega⟩]

/-- Values after the column-padding block, inside the output's column
range. -/
theorem padPairX_val (maxX : Nat) (p : Movie × Movie)
    (h : p.1.nx ≤ maxX) (e : p.2.nx = p.1.nx) :
    ∀ f i j c, j < maxX →
      ((padPairX maxX p).1.val f i j c =
        if leadPad maxX p.1.nx ≤ j ∧ j < leadPad maxX p.1.nx + p.1.nx
        then p.1.val f i (j - leadPad maxX p.1.nx) c else 0) ∧
      ((padPairX maxX p).2.val f i j c =
        if leadPad maxX p.1.nx ≤ j ∧ j < leadPad maxX p.1.nx + p.1.nx
        then p.2.val f i (j - leadPad maxX p.1.nx) c else 0) := by
  intro f i j c hj
  by_cases hx : p.1.nx < maxX
  · by_cases hp : (maxX - p.1.nx) % 2 = 0
    · have hl : leadPad maxX p.1.nx = (maxX - p.1.nx) / 2 := by
        rw [leadPad, hp, Nat.add_zero]
      simp only [padPairX, if_pos hx, if_pos hp, padAxis2_val, hl, e]
      constructor <;> trivial
    · have h1 : (maxX - p.1.nx) % 2 = 1 := by omega
      have hl : leadPad maxX p.1.nx = (maxX - p.1.nx) / 2 + 1 := by
        rw [leadPad, h1]
      simp only [padPairX, if_pos hx, if_neg hp, padAxis2_val, hl, e]
      constructor <;> trivial
  · have hl : leadPad maxX p.1.nx = 0 := by
      rw [leadPad]
      omega
    simp only [padPairX, if_neg hx, hl, Nat.zero_add, Nat.sub_zero]
    constructor <;> rw [if_pos ⟨Nat.zero_le j, by omega⟩]

/-- Values after the frame-padding block, inside the output's frame range:
original frames keep their indices (zero frames appended only at the
end). -/
theorem padPairF_val (maxFrames : Nat) (p : Movie × Movie)
    (h : p.1.nf ≤ maxFrames) (e : p.2.nf = p.1.nf) :
    ∀ f i j c, f < maxFrames →
      ((padPairF maxFrames p).1.val f i j c =
        if f < p.1.nf then p.1.val f i j c else 0) ∧
      ((padPairF maxFrames p).2.val f i j c =
        if f < p.1.nf then p.2.val f i j c else 0) := by
  intro f i j c hf
  by_cases hlt : p.1.nf < maxFrames
  · simp only [padPairF, if_pos hlt, padAxis0_val, Nat.zero_add, Nat.sub_zero, e]
    constructor <;> split_ifs <;> first | rfl | omega
  · simp only [padPairF, if_neg hlt]
    constructor <;> rw [if_pos (by omega)]

/-- C8: for a movie fitting inside the computed maxima, the padding step
yields raw and tracked arrays of shape exactly
`(max_frames, max_y, max_x, channels)`, zero-filled outside the original
pixels; an odd row/column deficit puts the extra zero row/column on the
leading side (`pad_width + 1` before, `pad_width` after — the leading
offset is `leadPad`), missing frames are appended only at the trailing end
(original frames keep their indices), and raw and tracked are padded with
the identical offsets. -/
theorem claim8_padding_uniform (maxFrames maxY maxX : Nat) (raw tracked : Movie)
    (h1 : raw.nf ≤ maxFrames) (h2 : raw.ny ≤ maxY) (h3 : raw.nx ≤ maxX)
    (e1 : tracked.nf = raw.nf) (e2 : tracked.ny = raw.ny)
    (e3 : tracked.nx = raw.nx) :
    ((padStep maxFrames maxY maxX raw tracked).1.nf = maxFrames ∧
     (padStep maxFrames maxY maxX raw tracked).1.ny = maxY ∧
     (padStep maxFrames maxY maxX raw tracked).1.nx = maxX ∧
     (padStep maxFrames maxY maxX raw tracked).1.nc = raw.nc) ∧
    ((padStep maxFrames maxY maxX raw tracked).2.nf = maxFrames ∧
     (padStep maxFrames maxY maxX raw tracked).2.ny = maxY ∧
     (padStep maxFrames maxY maxX raw tracked).2.nx = maxX ∧
     (padStep maxFrames maxY maxX raw tracked).2.nc = tracked.nc) ∧
    (∀ f i j c, f < maxFrames → i < maxY → j < maxX →
      (padStep maxFrames maxY maxX raw tracked).1.val f i j c =
        if f < raw.nf ∧ leadPad maxY raw.ny ≤ i ∧
            i < leadPad maxY raw.ny + raw.ny ∧
            leadPad maxX raw.nx ≤ j ∧ j < leadPad maxX raw.nx + raw.nx
        then raw.val f (i - leadPad maxY raw.ny) (j - leadPad maxX raw.nx) c
        else 0) ∧
    (∀ f i j c, f < maxFrames → i < maxY → j < maxX →
      (padStep maxFrames maxY maxX raw tracked).2.val f i j c =
        if f < raw.nf ∧ leadPad maxY raw.ny ≤ i ∧
            i < leadPad maxY raw.ny + raw.ny ∧
            leadPad maxX raw.nx ≤ j ∧ j < leadPad maxX raw.nx + raw.nx
        then tracked.val f (i - leadPad maxY raw.ny) (j - leadPad maxX raw.nx) c
        else 0) := by
  obtain ⟨a1, a2, a3, a4, a5, a6, a7, a8⟩ := padPairY_dims maxY (raw, tracked) h2 e2
  have hX : (padPairY maxY (raw, tracked)).1.nx ≤ maxX := by
    rw [a3]
    exact h3
  have eX : (padPairY maxY (raw, tracked)).2.nx = (padPairY maxY (raw, tracked)).1.nx := by
    rw [a3, a7]
    exact e3
  obtain ⟨b1, b2, b3, b4, b5, b6, b7, b8⟩ :=
    padPairX_dims maxX (padPairY maxY (raw, tracked)) hX eX
  have hF : (padPairX maxX (padPairY maxY (raw, tracked))).1.nf ≤ maxFrames := by
    rw [b1, a1]
    exact h1
  have eF : (padPairX maxX (padPairY maxY (raw, tracked))).2.nf =
      (padPairX maxX (padPairY maxY (raw, tracked))).1.nf := by
    rw [b1, b5, a1, a5]
    exact e1
  obtain ⟨c1, c2, c3, c4, c5, c6, c7, c8⟩ :=
    padPairF_dims maxFrames (padPairX maxX (padPairY maxY (raw, tracked))) hF eF
  simp only [padStep]
  refine ⟨⟨?_, ?_, ?_, ?_⟩, ⟨?_, ?_, ?_, ?_⟩, ?_, ?_⟩
  · exact c1
  · rw [c2, b2, a2]
  · rw [c3, b3]
  · rw [c4, b4, a4]
  · exact c5
  · rw [c6, b6, a6]
  · rw [c7, b7]
  · rw [c8, b8, a8]
  · intro f i j c hfb hib hjb
    rw [(padPairF_val maxFrames (padPairX maxX (padPairY maxY (raw, tracked))) hF eF
      f i j c hfb).1]
    rw [b1, a1]
    rw [(padPairX_val maxX (padPairY maxY (raw, tracked)) hX eX f i j c hjb).1]
    rw [a3]
    rw [(padPairY_val maxY (raw, tracked) h2 e2 f i
      (j - leadPad maxX (raw, tracked).1.nx) c hib).1]
    dsimp only
    split_ifs <;> first | rfl | omega
  · intro f i j c hfb hib hjb
    rw [(padPairF_val maxFrames (padPairX maxX (padPairY maxY (raw, tracked))) hF eF
      f i j c hfb).2]
    rw [b1, a1]
    rw [(padPairX_val maxX (padPairY maxY (raw, tracked)) hX eX f i j c hjb).2]
    rw [a3]
    rw [(padPairY_val maxY (raw, tracked) h2 e2 f i
      (j - leadPad maxX (raw, tracked).1.nx) c hib).2]
    dsimp only
    split_ifs <;> first | rfl | omega

/-- Witness for C8 at concrete movies: padding the 1x2x3 movies `wRaw` and
`wTrk` to maxima (2, 5, 4). -/
theorem claim8_padding_uniform_witness :
    (padStep 2 5 4 wRaw wTrk).1.ny = 5 ∧
    (padStep 2 5 4 wRaw wTrk).2.nc = wTrk.nc ∧
    (padStep 2 5 4 wRaw wTrk).1.val 0 2 1 0 = 7 ∧
    (padStep 2 5 4 wRaw wTrk).2.val 0 0 0 0 = 0 := by
  have h := claim8_padding_uniform 2 5 4 wRaw wTrk (by decide) (by decide)
    (by decide) (by decide) (by decide) (by decide)
  refine ⟨h.1.2.1, h.2.1.2.2.2, ?_, ?_⟩
  · rw [h.2.2.1 0 2 1 0 (by decide) (by decide) (by decide)]
    decide
  · rw [h.2.2.2 0 0 0 0 (by decide) (by decide) (by decide)]
    decide

/-- Witness for C9 at concrete movies: the 1x2x3 movie `wRaw` is returned
unchanged by padding against maxima (1, 2, 3), and against a smaller row
maximum its row count survives. -/
theorem claim9_maxima_first_movie_only_witness :
    padStep 1 2 3 wRaw wTrk = (wRaw, wTrk) ∧
    ((padStep 9 1 4 wRaw wTrk).1).ny = wRaw.ny :=
  ⟨claim9_maxima_first_movie_only.2.1 1 2 3 wRaw wTrk (by decide) (by decide)
      (by decide),
    (claim9_maxima_first_movie_only.2.2 9 1 4 wRaw wTrk (by decide)).1⟩

end DeepcellTF
